import Mathlib

/-!
# Nautilus desktop icon file and progress-info widget

A shallow embedding of `nautilus-desktop/nautilus-desktop-icon-file.c` and
`src/nautilus-progress-info-widget.c`.

Conventions of the embedding:

* a C pointer that may be `NULL` is an `Option`; a GObject instance carries its
  address in a field `ptr`, which is how it shows up in argument lists;
* a C function that calls into a collaborator (directory, desktop link, file
  operations, GTK, the caller's callback) returns the list of those calls, in
  program order, next to its result;
* reference counting (`g_object_ref`, `g_object_unref`, `nautilus_file_ref`,
  `g_free`, ...) is memory management and leaves no trace in the model;
* `gboolean` is `Bool`, `guint` is `Nat`, `goffset` is `Int`.
-/

namespace Nautilus

/-! ## Data model of the desktop icon file -/

/-- GFileType of GIO, the enumeration stored in `file->details->type`. -/
inductive GFileType
  | G_FILE_TYPE_UNKNOWN
  | G_FILE_TYPE_REGULAR
  | G_FILE_TYPE_DIRECTORY
  | G_FILE_TYPE_SYMBOLIC_LINK
  | G_FILE_TYPE_SPECIAL
  | G_FILE_TYPE_SHORTCUT
  | G_FILE_TYPE_MOUNTABLE
  deriving DecidableEq, Repr

/-- A `GMount *` that is not NULL: its address and the answers of
`g_mount_can_unmount` and `g_mount_can_eject`. -/
structure GMount where
  ptr : Nat
  can_unmount : Bool
  can_eject : Bool
  deriving DecidableEq, Repr

/-- Modelled from the spec: the desktop-link entity (`nautilus-desktop-link.c` is
outside the two files embedded here). A link is the record of what its getters
answer; each getter may answer NULL. -/
structure NautilusDesktopLink where
  ptr : Nat
  file_name : Option String
  display_name : Option String
  icon : Option Nat
  activation_uri : Option String
  mount : Option GMount
  can_rename : Bool
  deriving DecidableEq, Repr

/-- The errors handed to a `NautilusFileOperationCallback` by the rename path:
the file-already-gone failure of `nautilus_file_rename_handle_file_gone`, and
`g_error_new (G_IO_ERROR, G_IO_ERROR_FAILED, message)`. -/
inductive GError
  | file_already_gone
  | G_IO_ERROR_FAILED (message : String)
  deriving DecidableEq, Repr

/-- Calls made by the desktop icon file into its collaborators. -/
inductive Event
  /-- The call `(*callback) (file, NULL, error, callback_data)`. -/
  | callback (cb : Nat) (file : Nat) (error : Option GError)
  | nautilus_desktop_link_rename (link : NautilusDesktopLink) (new_name : String)
  | nautilus_desktop_link_get_file_name (link : Option NautilusDesktopLink)
  | nautilus_desktop_link_get_mount (link : Option NautilusDesktopLink)
  | nautilus_desktop_link_get_display_name (link : Option NautilusDesktopLink)
  | nautilus_desktop_link_get_icon (link : Option NautilusDesktopLink)
  | nautilus_desktop_link_get_activation_uri (link : Option NautilusDesktopLink)
  | nautilus_directory_add_file (directory : Option Nat) (file : Nat)
  | nautilus_directory_remove_file (directory : Option Nat) (file : Nat)
  | nautilus_directory_emit_files_added (directory : Option Nat) (files : List Nat)
  | nautilus_directory_emit_change_signals (directory : Option Nat) (files : List Nat)
  | nautilus_desktop_update_metadata_from_keyfile (file : Nat) (name : Option String)
  /-- The call `nautilus_file_operations_unmount_mount (parent_window, mount, eject, forceful)`;
  the last two are named after the executor signature `unmountMount(mount, eject, forceful)`. -/
  | nautilus_file_operations_unmount_mount
      (parent_window : Option Nat) (mount : GMount) (eject : Bool) (forceful : Bool)
  | nautilus_file_changed (file : Nat)
  deriving DecidableEq, Repr

/-- A `NautilusDesktopIconFile`: the fields of `file->details` (NautilusFile) that
the source reads or writes, and `link`, the one field of
`NautilusDesktopIconFileDetails`. -/
structure NautilusFile where
  ptr : Nat
  directory : Option Nat
  name : Option String
  display_name : Option String
  mime_type : Option String
  type : GFileType
  size : Int
  has_permissions : Bool
  can_read : Bool
  can_write : Bool
  can_mount : Bool
  can_unmount : Bool
  can_eject : Bool
  mount : Option GMount
  file_info_is_up_to_date : Bool
  icon : Option Nat
  activation_uri : Option String
  got_link_info : Bool
  link_info_is_up_to_date : Bool
  directory_count : Nat
  got_directory_count : Bool
  directory_count_is_up_to_date : Bool
  is_gone : Bool
  link : Option NautilusDesktopLink
  deriving DecidableEq, Repr

/-- NautilusRequestStatus, the result of `get_deep_counts`. -/
inductive NautilusRequestStatus
  | NAUTILUS_REQUEST_NOT_STARTED
  | NAUTILUS_REQUEST_IN_PROGRESS
  | NAUTILUS_REQUEST_DONE
  deriving DecidableEq, Repr

/-! ## Collaborators that are outside the two files embedded here -/

/-- Modelled from the spec: `nautilus_desktop_link_get_file_name`, the link's getter
for its file name; a null link has nothing to answer. -/
def nautilus_desktop_link_get_file_name (link : Option NautilusDesktopLink) : Option String :=
  link.bind fun l => l.file_name

/-- Modelled from the spec: `nautilus_desktop_link_get_mount`, the link's getter for
its mount; no mount is associated with a null link. -/
def nautilus_desktop_link_get_mount (link : Option NautilusDesktopLink) : Option GMount :=
  link.bind fun l => l.mount

/-- Modelled from the spec: `nautilus_desktop_link_get_display_name`. -/
def nautilus_desktop_link_get_display_name (link : Option NautilusDesktopLink) : Option String :=
  link.bind fun l => l.display_name

/-- Modelled from the spec: `nautilus_desktop_link_get_icon`. -/
def nautilus_desktop_link_get_icon (link : Option NautilusDesktopLink) : Option Nat :=
  link.bind fun l => l.icon

/-- Modelled from the spec: `nautilus_desktop_link_get_activation_uri`. -/
def nautilus_desktop_link_get_activation_uri (link : Option NautilusDesktopLink) : Option String :=
  link.bind fun l => l.activation_uri

/-- Modelled from the spec: `nautilus_desktop_link_can_rename`, whether the specific
link type permits renaming. -/
def nautilus_desktop_link_can_rename (link : NautilusDesktopLink) : Bool :=
  link.can_rename

/-- Modelled from the spec: `nautilus_file_set_display_name (file, display_name, NULL, TRUE)`
of `nautilus-file.c`; the refresh re-reads the display name from the link, so the
cached display name becomes the one handed in. -/
def nautilus_file_set_display_name (file : NautilusFile) (display_name : Option String) :
    NautilusFile :=
  { file with display_name := display_name }

/-- Modelled from the spec: `nautilus_file_get_display_name` of `nautilus-file.c`, the
file's current display name. -/
def nautilus_file_get_display_name (file : NautilusFile) : Option String :=
  file.display_name

/-- Modelled from the spec: `nautilus_file_set_directory` of `nautilus-file.c`, which
attaches the file to its directory. -/
def nautilus_file_set_directory (file : NautilusFile) (directory : Option Nat) : NautilusFile :=
  { file with directory := directory }

/-- Modelled from the spec: `nautilus_file_rename_handle_file_gone` of `nautilus-file.c`.
A rename fails immediately, signalling "file already gone" through the callback,
if the file was removed; the result says whether that happened. -/
def nautilus_file_rename_handle_file_gone (file : NautilusFile) (callback : Nat) :
    Bool × List Event :=
  if file.is_gone then
    (true, [Event.callback callback file.ptr (some GError.file_already_gone)])
  else
    (false, [])

/-! ## nautilus-desktop-icon-file.c -/

/-- The source function `desktop_icon_file_get_item_count`; an out argument is passed as
`some old` when the pointer is not NULL and comes back with the stored value. -/
def desktop_icon_file_get_item_count (_file : NautilusFile)
    (count : Option Nat) (count_unreadable : Option Bool) :
    Bool × Option Nat × Option Bool :=
  (true, count.map (fun _ => 0), count_unreadable.map (fun _ => false))

/-- The source function `desktop_icon_file_get_deep_counts`, out arguments as above. -/
def desktop_icon_file_get_deep_counts (_file : NautilusFile)
    (directory_count file_count unreadable_directory_count : Option Nat)
    (total_size : Option Int) :
    NautilusRequestStatus × Option Nat × Option Nat × Option Nat × Option Int :=
  (NautilusRequestStatus.NAUTILUS_REQUEST_DONE,
   directory_count.map (fun _ => 0), file_count.map (fun _ => 0),
   unreadable_directory_count.map (fun _ => 0), total_size.map (fun _ => 0))

/-- The source function `update_info_from_link`. -/
def update_info_from_link (icon_file : NautilusFile) : NautilusFile × List Event :=
  match icon_file.link with
  | none => (icon_file, [])
  | some link =>
    let file := { icon_file with
      mime_type := some "application/x-nautilus-link"
      type := GFileType.G_FILE_TYPE_SHORTCUT
      size := 0
      has_permissions := false
      can_read := true
      can_write := true
      can_mount := false
      can_unmount := false
      can_eject := false }
    let mount := nautilus_desktop_link_get_mount (some link)
    let file := { file with mount := mount }
    let file :=
      match mount with
      | some m => { file with can_unmount := m.can_unmount, can_eject := m.can_eject }
      | none => file
    let file := { file with file_info_is_up_to_date := true }
    let display_name := nautilus_desktop_link_get_display_name (some link)
    let file := nautilus_file_set_display_name file display_name
    let file := { file with
      icon := nautilus_desktop_link_get_icon (some link)
      activation_uri := nautilus_desktop_link_get_activation_uri (some link)
      got_link_info := true
      link_info_is_up_to_date := true
      directory_count := 0
      got_directory_count := true
      directory_count_is_up_to_date := true }
    (file,
     [Event.nautilus_desktop_link_get_mount (some link),
      Event.nautilus_desktop_link_get_display_name (some link),
      Event.nautilus_desktop_link_get_icon (some link),
      Event.nautilus_desktop_link_get_activation_uri (some link)])

/-- The source function `nautilus_desktop_icon_file_update`. -/
def nautilus_desktop_icon_file_update (icon_file : NautilusFile) : NautilusFile × List Event :=
  let r := update_info_from_link icon_file
  (r.1, r.2 ++ [Event.nautilus_file_changed r.1.ptr])

/-- The source function `nautilus_desktop_icon_file_remove`. -/
def nautilus_desktop_icon_file_remove (icon_file : NautilusFile) : NautilusFile × List Event :=
  let file := { icon_file with link := none }
  let file := { file with is_gone := true }
  (file,
   [Event.nautilus_directory_remove_file file.directory file.ptr,
    Event.nautilus_directory_emit_change_signals file.directory [file.ptr]])

/-- The source function `nautilus_desktop_icon_file_new`; `directory` is what
`nautilus_directory_get_by_uri (EEL_DESKTOP_URI)` returned and `file` the instance
fresh from `g_object_new`. -/
def nautilus_desktop_icon_file_new (directory : Option Nat) (file : NautilusFile)
    (link : Option NautilusDesktopLink) : NautilusFile × List Event :=
  let file := nautilus_file_set_directory file directory
  let file := { file with link := link }
  let name := nautilus_desktop_link_get_file_name link
  let file := { file with name := name }
  let r := update_info_from_link file
  let file := r.1
  (file,
   [Event.nautilus_desktop_link_get_file_name link] ++ r.2 ++
   [Event.nautilus_desktop_update_metadata_from_keyfile file.ptr file.name,
    Event.nautilus_directory_add_file directory file.ptr,
    Event.nautilus_directory_emit_files_added directory [file.ptr]])

/-- The source function `nautilus_desktop_icon_file_get_link`. -/
def nautilus_desktop_icon_file_get_link (icon_file : NautilusFile) :
    Option NautilusDesktopLink :=
  match icon_file.link with
  | some link => some link
  | none => none

/-- The source function `nautilus_desktop_icon_file_unmount`. -/
def nautilus_desktop_icon_file_unmount (file : NautilusFile) : List Event :=
  let mount := nautilus_desktop_link_get_mount file.link
  [Event.nautilus_desktop_link_get_mount file.link] ++
  match mount with
  | some mount => [Event.nautilus_file_operations_unmount_mount none mount false true]
  | none => []

/-- The source function `nautilus_desktop_icon_file_eject`. -/
def nautilus_desktop_icon_file_eject (file : NautilusFile) : List Event :=
  let mount := nautilus_desktop_link_get_mount file.link
  [Event.nautilus_desktop_link_get_mount file.link] ++
  match mount with
  | some mount => [Event.nautilus_file_operations_unmount_mount none mount true true]
  | none => []

/-- The message of the generic rename failure, `_("Unable to rename desktop icon")`. -/
def rename_failed_message : String := "Unable to rename desktop icon"

/-- The source function `real_rename`. `link_rename` is the outcome of
`nautilus_desktop_link_rename (link, new_name)`; `new_name` and `callback` are
`none` when the caller passes NULL. -/
def real_rename (link_rename : NautilusDesktopLink → String → Bool)
    (file : NautilusFile) (new_name : Option String) (callback : Option Nat) : List Event :=
  match new_name, callback with
  | none, _ => []
  | some _, none => []
  | some new_name, some callback =>
    let gone := nautilus_file_rename_handle_file_gone file callback
    if gone.1 then gone.2
    else
      let link := nautilus_desktop_icon_file_get_link file
      let old_name := nautilus_file_get_display_name file
      let same_name : Bool :=
        match old_name with
        | some old_name => decide (new_name = old_name)
        | none => false
      let renamed : Bool × List Event :=
        if same_name then (true, [])
        else
          match link with
          | some link =>
            (link_rename link new_name, [Event.nautilus_desktop_link_rename link new_name])
          | none => (false, [])
      gone.2 ++ renamed.2 ++
      (if renamed.1 then [Event.callback callback file.ptr none]
       else [Event.callback callback file.ptr
               (some (GError.G_IO_ERROR_FAILED rename_failed_message))])

/-- The source function `real_can_rename`; `parent_can_rename` is the answer of the base
class, `NAUTILUS_FILE_CLASS (nautilus_desktop_icon_file_parent_class)->can_rename (file)`. -/
def real_can_rename (parent_can_rename : NautilusFile → Bool) (file : NautilusFile) : Bool :=
  let can_rename := parent_can_rename file
  if !can_rename then false
  else
    match nautilus_desktop_icon_file_get_link file with
    | some link => nautilus_desktop_link_can_rename link
    | none => can_rename

/-- Whether an event is a call of the link's rename operation. -/
def Event.is_link_rename : Event → Bool
  | Event.nautilus_desktop_link_rename _ _ => true
  | _ => false

/-- Whether an event is a call of the file-operation executor. -/
def Event.is_unmount_mount : Event → Bool
  | Event.nautilus_file_operations_unmount_mount _ _ _ _ => true
  | _ => false

/-- A desktop icon file for examples: fresh from `g_object_new`, all fields zero. -/
def example_file : NautilusFile :=
  { ptr := 1, directory := none, name := none, display_name := none, mime_type := none,
    type := GFileType.G_FILE_TYPE_UNKNOWN, size := 0, has_permissions := false,
    can_read := false, can_write := false, can_mount := false, can_unmount := false,
    can_eject := false, mount := none, file_info_is_up_to_date := false, icon := none,
    activation_uri := none, got_link_info := false, link_info_is_up_to_date := false,
    directory_count := 0, got_directory_count := false,
    directory_count_is_up_to_date := false, is_gone := false, link := none }

/-- A desktop link for examples: the shortcut of a mounted volume. -/
def example_link : NautilusDesktopLink :=
  { ptr := 2, file_name := some "mount-1", display_name := some "USB stick",
    icon := some 7, activation_uri := some "file:///media/usb",
    mount := some { ptr := 3, can_unmount := true, can_eject := false },
    can_rename := false }

/-! ## Data model of the progress-info widget -/

/-- A C `double`, as far as `update_progress` looks at it: a finite value (a rational),
an infinity, or a NaN. -/
inductive Double
  | finite (q : ℚ)
  | pos_inf
  | neg_inf
  | nan
  deriving DecidableEq

/-- The C comparison `progress < 0` on a double; it is false on a NaN. -/
def Double.lt_zero : Double → Bool
  | Double.finite q => decide (q < 0)
  | Double.pos_inf => false
  | Double.neg_inf => true
  | Double.nan => false

/-- Modelled from the spec: the progress-info data object (`nautilus-progress-info.c` is
outside the two files embedded here), as the record of what its accessors `getStatus`,
`getDetails` and `getProgress` answer. -/
structure NautilusProgressInfo where
  ptr : Nat
  status : String
  details : String
  progress : Double
  deriving DecidableEq

/-- Calls made by the progress widget into GTK and into the progress-info object. -/
inductive WidgetEvent
  | gtk_label_set_text (label : Nat) (text : String)
  /-- The call `gtk_label_set_markup (label, g_markup_printf_escaped (format, arg))`. -/
  | gtk_label_set_markup (label : Nat) (format : String) (arg : String)
  | gtk_progress_bar_pulse (progress_bar : Nat)
  | gtk_progress_bar_set_fraction (progress_bar : Nat) (fraction : Double)
  | gtk_widget_destroy (widget : Nat)
  | gtk_widget_set_sensitive (widget : Nat) (sensitive : Bool)
  | nautilus_progress_info_cancel (info : Nat)
  deriving DecidableEq

/-- The notifications of the progress-info object. -/
inductive InfoSignal
  | changed
  | progress_changed
  | finished
  deriving DecidableEq, Repr

/-- The callbacks that the widget connects to the progress-info object. -/
inductive InfoHandler
  | update_data
  | update_progress
  | info_finished
  deriving DecidableEq, Repr

/-- The callbacks that the widget connects to its cancel button. -/
inductive ClickHandler
  | cancel_clicked
  deriving DecidableEq, Repr

/-- A GtkButton: its address and whether it is sensitive. -/
structure GtkButton where
  ptr : Nat
  sensitive : Bool
  deriving DecidableEq, Repr

/-- A `NautilusProgressInfoWidget`: the fields of `_NautilusProgressInfoWidgetPrivate`
and the signal connections made by the widget (`info_handlers` on `priv->info`,
`cancel_handlers` on the `clicked` signal of `priv->cancel`), in connection order. -/
structure NautilusProgressInfoWidget where
  ptr : Nat
  info : NautilusProgressInfo
  status : Nat
  details : Nat
  progress_bar : Nat
  cancel : GtkButton
  info_handlers : List (InfoSignal × InfoHandler)
  cancel_handlers : List ClickHandler
  deriving DecidableEq

/-! ## nautilus-progress-info-widget.c -/

/-- The source function `info_finished`. -/
def info_finished (self : NautilusProgressInfoWidget) : List WidgetEvent :=
  [WidgetEvent.gtk_widget_destroy self.ptr]

/-- The source function `update_data`. -/
def update_data (self : NautilusProgressInfoWidget) : List WidgetEvent :=
  let status := self.info.status
  let details := self.info.details
  [WidgetEvent.gtk_label_set_text self.status status,
   WidgetEvent.gtk_label_set_markup self.details "<span size=\x27small\x27>%s</span>" details]

/-- The source function `update_progress`. -/
def update_progress (self : NautilusProgressInfoWidget) : List WidgetEvent :=
  let progress := self.info.progress
  if progress.lt_zero then
    [WidgetEvent.gtk_progress_bar_pulse self.progress_bar]
  else
    [WidgetEvent.gtk_progress_bar_set_fraction self.progress_bar progress]

/-- The source function `cancel_clicked`, run with `button` the widget's cancel button (the
only button it is connected to); `gtk_widget_set_sensitive (button, FALSE)` leaves the
button insensitive. -/
def cancel_clicked (self : NautilusProgressInfoWidget) :
    NautilusProgressInfoWidget × List WidgetEvent :=
  ({ self with cancel := { self.cancel with sensitive := false } },
   [WidgetEvent.nautilus_progress_info_cancel self.info.ptr,
    WidgetEvent.gtk_widget_set_sensitive self.cancel.ptr false])

/-- The source function `nautilus_progress_info_widget_constructed`. -/
def nautilus_progress_info_widget_constructed (self : NautilusProgressInfoWidget) :
    NautilusProgressInfoWidget × List WidgetEvent :=
  let self := { self with info_handlers :=
    self.info_handlers ++
      [(InfoSignal.changed, InfoHandler.update_data),
       (InfoSignal.progress_changed, InfoHandler.update_progress),
       (InfoSignal.finished, InfoHandler.info_finished)] }
  (self, update_data self ++ update_progress self)

/-- The source function `nautilus_progress_info_widget_init`. -/
def nautilus_progress_info_widget_init (self : NautilusProgressInfoWidget) :
    NautilusProgressInfoWidget :=
  { self with cancel_handlers := self.cancel_handlers ++ [ClickHandler.cancel_clicked] }

/-- The children bound by `gtk_widget_init_template`, and the address of the widget. -/
structure WidgetTemplate where
  ptr : Nat
  status : Nat
  details : Nat
  progress_bar : Nat
  cancel : GtkButton
  deriving DecidableEq, Repr

/-- The source function `nautilus_progress_info_widget_new`: `g_object_new` allocates the
instance with no signal connected, runs `nautilus_progress_info_widget_init`, stores the
construct-only property `info` (`nautilus_progress_info_widget_set_property`) and runs
`nautilus_progress_info_widget_constructed`. -/
def nautilus_progress_info_widget_new (template : WidgetTemplate)
    (info : NautilusProgressInfo) : NautilusProgressInfoWidget × List WidgetEvent :=
  let self : NautilusProgressInfoWidget :=
    { ptr := template.ptr, info := info, status := template.status,
      details := template.details, progress_bar := template.progress_bar,
      cancel := template.cancel, info_handlers := [], cancel_handlers := [] }
  nautilus_progress_info_widget_constructed (nautilus_progress_info_widget_init self)

/-- Run one callback connected to the progress-info object. -/
def InfoHandler.run (h : InfoHandler) (self : NautilusProgressInfoWidget) : List WidgetEvent :=
  match h with
  | InfoHandler.update_data => Nautilus.update_data self
  | InfoHandler.update_progress => Nautilus.update_progress self
  | InfoHandler.info_finished => Nautilus.info_finished self

/-- A notification of the progress-info object: every callback connected to that signal
runs once, in connection order. -/
def emit_info_signal (self : NautilusProgressInfoWidget) (signal : InfoSignal) :
    List WidgetEvent :=
  ((self.info_handlers.filter fun c => decide (c.1 = signal)).map
    fun c => c.2.run self).flatten

/-- Run the callbacks connected to the `clicked` signal of the cancel button. -/
def run_click_handlers :
    List ClickHandler → NautilusProgressInfoWidget →
      NautilusProgressInfoWidget × List WidgetEvent
  | [], self => (self, [])
  | ClickHandler.cancel_clicked :: rest, self =>
    let r := cancel_clicked self
    let r2 := run_click_handlers rest r.1
    (r2.1, r.2 ++ r2.2)

/-- Modelled from the spec: the toolkit's dispatch of an activation of the cancel button
(GTK is outside the two files embedded here). An activation of a sensitive button emits
`clicked`; further clicks are inert once the button is disabled. -/
def activate_cancel_button (self : NautilusProgressInfoWidget) :
    NautilusProgressInfoWidget × List WidgetEvent :=
  if self.cancel.sensitive then run_click_handlers self.cancel_handlers self
  else (self, [])

/-- Whether an event is a call of `nautilus_progress_info_cancel`. -/
def WidgetEvent.is_cancel : WidgetEvent → Bool
  | WidgetEvent.nautilus_progress_info_cancel _ => true
  | _ => false

/-- Whether an event is a call of `gtk_widget_destroy`. -/
def WidgetEvent.is_destroy : WidgetEvent → Bool
  | WidgetEvent.gtk_widget_destroy _ => true
  | _ => false

/-- Whether an event is a call of `gtk_progress_bar_pulse`. -/
def WidgetEvent.is_pulse : WidgetEvent → Bool
  | WidgetEvent.gtk_progress_bar_pulse _ => true
  | _ => false

/-- Whether an event is a call of `gtk_progress_bar_set_fraction`. -/
def WidgetEvent.is_set_fraction : WidgetEvent → Bool
  | WidgetEvent.gtk_progress_bar_set_fraction _ _ => true
  | _ => false

/-- A progress-info object for examples, reporting the given progress. -/
def example_info (progress : Double) : NautilusProgressInfo :=
  { ptr := 10, status := "Copying files", details := "3 of 7", progress := progress }

/-- The template children for examples, with a sensitive cancel button. -/
def example_template : WidgetTemplate :=
  { ptr := 20, status := 21, details := 22, progress_bar := 23,
    cancel := { ptr := 24, sensitive := true } }


/-- The file after `n` further calls of `nautilus_desktop_icon_file_update`. -/
def after_updates : Nat → NautilusFile → NautilusFile
  | 0, file => file
  | n + 1, file => after_updates n (nautilus_desktop_icon_file_update file).1

/-- The example file as `nautilus_desktop_icon_file_new` builds it for the example link in
directory 9. -/
def example_icon_file : NautilusFile :=
  (nautilus_desktop_icon_file_new (some 9) example_file (some example_link)).1

/-- The example icon file after `nautilus_desktop_icon_file_remove`. -/
def removed_icon_file : NautilusFile :=
  (nautilus_desktop_icon_file_remove example_icon_file).1

/-- A file that is not gone and whose link reference is null. -/
def unlinked_file : NautilusFile :=
  { example_file with display_name := some "Trash" }


/-- The widget with its progress-info object reporting the progress `p`. -/
def reporting (self : NautilusProgressInfoWidget) (p : Double) : NautilusProgressInfoWidget :=
  { self with info := { self.info with progress := p } }


/-- The fresh example file with the example link attached, before any refresh. -/
def linked_file : NautilusFile :=
  { example_file with link := some example_link }

/-- A desktop link for examples that has no mount: a launcher. -/
def example_launcher : NautilusDesktopLink :=
  { ptr := 4, file_name := some "home", display_name := some "Home",
    icon := some 8, activation_uri := some "file:///home/user",
    mount := none, can_rename := true }

/-- A file with stale cached fields and the launcher attached. -/
def stale_launcher_file : NautilusFile :=
  { example_file with
    mime_type := some "text/plain", size := 42, can_mount := true, can_unmount := true,
    can_eject := true, directory_count := 5, link := some example_launcher }


/-- What can happen to a desktop icon file after `nautilus_desktop_icon_file_new`: a call of
`nautilus_desktop_icon_file_update`, a call of `nautilus_desktop_icon_file_remove`, or the
link entity changing what its getters answer (the file keeps the same reference). The link
reference itself is private to `nautilus-desktop-icon-file.c` and is written by `new` and
`remove` only. -/
inductive IconFileOp
  | update
  | remove
  | link_changed (answers : NautilusDesktopLink)
  deriving DecidableEq, Repr

/-- The file after one operation. -/
def apply_op : IconFileOp → NautilusFile → NautilusFile
  | IconFileOp.update, file => (nautilus_desktop_icon_file_update file).1
  | IconFileOp.remove, file => (nautilus_desktop_icon_file_remove file).1
  | IconFileOp.link_changed answers, file =>
    { file with link := file.link.map fun l => { answers with ptr := l.ptr } }

/-- The file after a sequence of operations, first to last. -/
def apply_ops : List IconFileOp → NautilusFile → NautilusFile
  | [], file => file
  | op :: rest, file => apply_ops rest (apply_op op file)

/-- A history for examples: a refresh, the link now answering as the launcher, a refresh. -/
def example_history : List IconFileOp :=
  [IconFileOp.update, IconFileOp.link_changed example_launcher, IconFileOp.update]

/-- The example file made for the example link in directory 9, after the example history. -/
def example_history_file : NautilusFile :=
  apply_ops example_history
    (nautilus_desktop_icon_file_new (some 9) example_file (some example_link)).1

end Nautilus

namespace Nautilus

/-! ## Helper lemmas -/

/-- A file without a link comes back from `update_info_from_link` as it went in. -/
theorem update_info_from_link_of_null (file : NautilusFile) (h : file.link = none) :
    update_info_from_link file = (file, []) := by
  unfold update_info_from_link
  rw [h]

/-- A file without a link is left as it is by `nautilus_desktop_icon_file_update`. -/
theorem update_of_null (file : NautilusFile) (h : file.link = none) :
    (nautilus_desktop_icon_file_update file).1 = file := by
  unfold nautilus_desktop_icon_file_update
  rw [update_info_from_link_of_null file h]

/-- A file without a link is left as it is by any number of updates. -/
theorem after_updates_of_null (n : Nat) (file : NautilusFile) (h : file.link = none) :
    after_updates n file = file := by
  induction n with
  | zero => rfl
  | succ k ih =>
    unfold after_updates
    rw [update_of_null file h]
    exact ih

/-- The calls of `real_rename` on a file that is gone. -/
theorem real_rename_of_gone (link_rename : NautilusDesktopLink → String → Bool)
    (file : NautilusFile) (new_name : String) (callback : Nat) (h : file.is_gone = true) :
    real_rename link_rename file (some new_name) (some callback) =
      [Event.callback callback file.ptr (some GError.file_already_gone)] := by
  simp [real_rename, nautilus_file_rename_handle_file_gone, h]

/-- The calls of `real_rename` on a file that is not gone. -/
theorem real_rename_of_live (link_rename : NautilusDesktopLink → String → Bool)
    (file : NautilusFile) (new_name : String) (callback : Nat) (h : file.is_gone = false) :
    real_rename link_rename file (some new_name) (some callback) =
      (if file.display_name = some new_name then []
       else
         match file.link with
         | some link => [Event.nautilus_desktop_link_rename link new_name]
         | none => []) ++
      [Event.callback callback file.ptr
        (if file.display_name = some new_name then none
         else
           match file.link with
           | some link =>
             if link_rename link new_name then none
             else some (GError.G_IO_ERROR_FAILED rename_failed_message)
           | none => some (GError.G_IO_ERROR_FAILED rename_failed_message))] := by
  simp only [real_rename, nautilus_file_rename_handle_file_gone, h,
    nautilus_desktop_icon_file_get_link, nautilus_file_get_display_name]
  cases hd : file.display_name with
  | none =>
    cases hl : file.link with
    | none => simp
    | some link => cases hr : link_rename link new_name <;> simp [hr]
  | some old =>
    by_cases hn : new_name = old
    · subst hn
      simp
    · have hn2 : ¬ old = new_name := fun e => hn e.symm
      cases hl : file.link with
      | none => simp [hn, hn2]
      | some link => cases hr : link_rename link new_name <;> simp [hn, hn2, hr]

/-! ## Rename -/

/-- C1: once `nautilus_desktop_icon_file_remove` has been called on a desktop icon file,
every later `real_rename` (whatever the new name, and whatever number of
`nautilus_desktop_icon_file_update` calls came in between) makes exactly one call, the
caller's callback with the file-already-gone failure; in particular it never calls
`nautilus_desktop_link_rename`. -/
theorem real_rename_after_remove (link_rename : NautilusDesktopLink → String → Bool)
    (icon_file : NautilusFile) (n : Nat) (new_name : String) (callback : Nat) :
    real_rename link_rename
        (after_updates n (nautilus_desktop_icon_file_remove icon_file).1)
        (some new_name) (some callback) =
      [Event.callback callback icon_file.ptr (some GError.file_already_gone)] ∧
    (real_rename link_rename
        (after_updates n (nautilus_desktop_icon_file_remove icon_file).1)
        (some new_name) (some callback)).all (fun e => !e.is_link_rename) = true := by
  have hfile : after_updates n (nautilus_desktop_icon_file_remove icon_file).1 =
      (nautilus_desktop_icon_file_remove icon_file).1 :=
    after_updates_of_null n _ rfl
  have hgone : real_rename link_rename (nautilus_desktop_icon_file_remove icon_file).1
      (some new_name) (some callback) =
      [Event.callback callback icon_file.ptr (some GError.file_already_gone)] :=
    real_rename_of_gone link_rename _ new_name callback rfl
  rw [hfile, hgone]
  exact ⟨rfl, rfl⟩

/-- C2, as stated, fails on a removed file: the example icon file, built for the example
link and then removed, has the display name "USB stick" and a null link, and renaming it to
"USB stick" hands the file-already-gone failure to the callback instead of succeeding. -/
theorem real_rename_same_name_removed_fails :
    nautilus_file_get_display_name removed_icon_file = some "USB stick" ∧
    removed_icon_file.link = none ∧
    real_rename (fun _ _ => true) removed_icon_file (some "USB stick") (some 5) =
      [Event.callback 5 1 (some GError.file_already_gone)] := by
  decide

/-- C2, amended: for every desktop icon file that is not gone, whatever the state of its link
(present or null), `real_rename` to the current display name makes exactly one call, the
callback with no error; `nautilus_desktop_link_rename` is not called. -/
theorem real_rename_same_name (link_rename : NautilusDesktopLink → String → Bool)
    (file : NautilusFile) (new_name : String) (callback : Nat)
    (hlive : file.is_gone = false)
    (hname : nautilus_file_get_display_name file = some new_name) :
    real_rename link_rename file (some new_name) (some callback) =
      [Event.callback callback file.ptr none] := by
  rw [real_rename_of_live link_rename file new_name callback hlive]
  simp only [nautilus_file_get_display_name] at hname
  simp [hname]

/-- C2, amended, at concrete inputs: the example icon file (link present) renamed to its
display name "USB stick". -/
theorem real_rename_same_name_witness :
    example_icon_file.is_gone = false ∧
    nautilus_file_get_display_name example_icon_file = some "USB stick" ∧
    real_rename (fun _ _ => false) example_icon_file (some "USB stick") (some 5) =
      [Event.callback 5 1 none] :=
  ⟨by decide, by decide,
   real_rename_same_name (fun _ _ => false) example_icon_file "USB stick" 5
     (by decide) (by decide)⟩

/-- The calls of `real_rename` on a file that is not gone, for a new name other than the
current display name: with the link present, `nautilus_desktop_link_rename` and then the
callback with the outcome; with a null link reference, the callback with the generic failure
alone. -/
theorem real_rename_other_name (link_rename : NautilusDesktopLink → String → Bool)
    (file : NautilusFile) (new_name : String) (callback : Nat)
    (hlive : file.is_gone = false)
    (hname : nautilus_file_get_display_name file ≠ some new_name) :
    real_rename link_rename file (some new_name) (some callback) =
      match nautilus_desktop_icon_file_get_link file with
      | some link =>
        [Event.nautilus_desktop_link_rename link new_name,
         Event.callback callback file.ptr
           (if link_rename link new_name then none
            else some (GError.G_IO_ERROR_FAILED "Unable to rename desktop icon"))]
      | none =>
        [Event.callback callback file.ptr
           (some (GError.G_IO_ERROR_FAILED "Unable to rename desktop icon"))] := by
  rw [real_rename_of_live link_rename file new_name callback hlive]
  simp only [nautilus_file_get_display_name] at hname
  simp only [nautilus_desktop_icon_file_get_link, rename_failed_message]
  cases hl : file.link <;> simp [hname]

/-- The refresh leaves the link reference and the gone flag as they are. -/
theorem update_info_from_link_keeps_link (file : NautilusFile) :
    (update_info_from_link file).1.link = file.link ∧
    (update_info_from_link file).1.is_gone = file.is_gone := by
  unfold update_info_from_link
  cases hl : file.link with
  | none => simp [hl]
  | some l =>
    cases hm : l.mount <;>
      simp [nautilus_desktop_link_get_mount, nautilus_file_set_display_name, hm]

/-- Every operation keeps the invariant of the link reference: a file without its link is
gone. -/
theorem apply_op_keeps_link_of_live (op : IconFileOp) (file : NautilusFile)
    (h : file.link = none → file.is_gone = true) :
    (apply_op op file).link = none → (apply_op op file).is_gone = true := by
  cases op with
  | update =>
    simp only [apply_op, nautilus_desktop_icon_file_update]
    rw [(update_info_from_link_keeps_link file).1, (update_info_from_link_keeps_link file).2]
    exact h
  | remove =>
    intro _
    rfl
  | link_changed answers =>
    simp only [apply_op]
    cases hl : file.link with
    | none =>
      intro _
      exact h hl
    | some l =>
      intro hn
      simp at hn

/-- Any sequence of operations keeps the invariant of the link reference. -/
theorem apply_ops_keeps_link_of_live (ops : List IconFileOp) (file : NautilusFile)
    (h : file.link = none → file.is_gone = true) :
    (apply_ops ops file).link = none → (apply_ops ops file).is_gone = true := by
  induction ops generalizing file with
  | nil => exact h
  | cons op rest ih =>
    unfold apply_ops
    exact ih (apply_op op file) (apply_op_keeps_link_of_live op file h)

/-- A file made by `nautilus_desktop_icon_file_new` for a link holds that link. -/
theorem new_holds_link (directory : Option Nat) (file : NautilusFile)
    (link : NautilusDesktopLink) :
    (nautilus_desktop_icon_file_new directory file (some link)).1.link = some link := by
  have h := (update_info_from_link_keeps_link
    { nautilus_file_set_directory file directory with
      link := some link, name := nautilus_desktop_link_get_file_name (some link) }).1
  simpa [nautilus_desktop_icon_file_new] using h

/-- C3: take any desktop icon file made by `nautilus_desktop_icon_file_new` for a link and
taken through any sequence of updates, changes of the link's answers and removals. If it is
not gone, then for every new name different from its current display name `real_rename`
delegates to `nautilus_desktop_link_rename` on the file's link and then invokes the callback,
exactly once: with no error when the link's rename succeeds, with `G_IO_ERROR_FAILED`,
"Unable to rename desktop icon", when it fails. These two are all the calls made, so the
error is delivered only through the callback. -/
theorem real_rename_delegates (link_rename : NautilusDesktopLink → String → Bool)
    (directory : Option Nat) (fresh : NautilusFile) (link0 : NautilusDesktopLink)
    (ops : List IconFileOp) (new_name : String) (callback : Nat)
    (hlive : (apply_ops ops
      (nautilus_desktop_icon_file_new directory fresh (some link0)).1).is_gone = false)
    (hname : nautilus_file_get_display_name (apply_ops ops
      (nautilus_desktop_icon_file_new directory fresh (some link0)).1) ≠ some new_name) :
    ∃ link,
      nautilus_desktop_icon_file_get_link (apply_ops ops
        (nautilus_desktop_icon_file_new directory fresh (some link0)).1) = some link ∧
      real_rename link_rename
        (apply_ops ops (nautilus_desktop_icon_file_new directory fresh (some link0)).1)
        (some new_name) (some callback) =
        [Event.nautilus_desktop_link_rename link new_name,
         Event.callback callback
           (apply_ops ops (nautilus_desktop_icon_file_new directory fresh (some link0)).1).ptr
           (if link_rename link new_name then none
            else some (GError.G_IO_ERROR_FAILED "Unable to rename desktop icon"))] := by
  have hinv := apply_ops_keeps_link_of_live ops
    (nautilus_desktop_icon_file_new directory fresh (some link0)).1
    (fun hn => by rw [new_holds_link] at hn; simp at hn)
  have hcalls := real_rename_other_name link_rename _ new_name callback hlive hname
  cases hl : (apply_ops ops
      (nautilus_desktop_icon_file_new directory fresh (some link0)).1).link with
  | none =>
    have hgone := hinv hl
    rw [hlive] at hgone
    exact absurd hgone (by decide)
  | some link =>
    refine ⟨link, ?_, ?_⟩
    · simp [nautilus_desktop_icon_file_get_link, hl]
    · rw [hcalls]
      simp [nautilus_desktop_icon_file_get_link, hl]

/-- C3 at concrete inputs: the example file made for the example link, refreshed, then the
link answering as the launcher and refreshed again, so that its display name is "Home";
renamed to "Stick" with a link whose rename fails, and to "Flat" with one whose rename
succeeds. -/
theorem real_rename_delegates_witness :
    example_history_file.is_gone = false ∧
    nautilus_file_get_display_name example_history_file = some "Home" ∧
    (∃ link,
      nautilus_desktop_icon_file_get_link example_history_file = some link ∧
      real_rename (fun _ _ => false) example_history_file (some "Stick") (some 5) =
        [Event.nautilus_desktop_link_rename link "Stick",
         Event.callback 5 example_history_file.ptr
           (if (fun _ _ => false : NautilusDesktopLink → String → Bool) link "Stick" then none
            else some (GError.G_IO_ERROR_FAILED "Unable to rename desktop icon"))]) ∧
    real_rename (fun _ _ => true) example_history_file (some "Flat") (some 5) =
      [Event.nautilus_desktop_link_rename { example_launcher with ptr := 2 } "Flat",
       Event.callback 5 1 none] :=
  ⟨by decide, by decide,
   real_rename_delegates (fun _ _ => false) (some 9) example_file example_link
     example_history "Stick" 5 (by decide) (by decide),
   by decide⟩

/-! ## Can rename -/

/-- C4, as stated, fails when the link reference is null (on the example icon file after
`nautilus_desktop_icon_file_remove`, and on a file that never had a link): with a base class
that allows renaming, `real_can_rename` is true although no link permits anything. -/
theorem real_can_rename_null_link_true :
    nautilus_desktop_icon_file_get_link removed_icon_file = none ∧
    real_can_rename (fun _ => true) removed_icon_file = true ∧
    nautilus_desktop_icon_file_get_link unlinked_file = none ∧
    real_can_rename (fun _ => true) unlinked_file = true := by
  decide

/-- C4, amended: `real_can_rename` is true exactly when the base class's `can_rename` is true
and the link, if the file still has one, permits renaming
(`nautilus_desktop_link_can_rename`); with a null link reference the link-level permission is
not asked for and the answer is the base class's. -/
theorem real_can_rename_iff (parent_can_rename : NautilusFile → Bool) (file : NautilusFile) :
    real_can_rename parent_can_rename file = true ↔
      parent_can_rename file = true ∧
      ∀ link, nautilus_desktop_icon_file_get_link file = some link →
        nautilus_desktop_link_can_rename link = true := by
  unfold real_can_rename nautilus_desktop_icon_file_get_link
  cases hp : parent_can_rename file <;> cases hl : file.link <;> simp

/-! ## Unmount and eject -/

/-- C5, as stated, fails for unmount: on the example icon file, whose link has the mount 3,
`nautilus_desktop_icon_file_unmount` calls the executor with eject false and forceful true;
no call with forceful false is made. -/
theorem unmount_forceful_true :
    nautilus_desktop_icon_file_unmount example_icon_file =
      [Event.nautilus_desktop_link_get_mount (some example_link),
       Event.nautilus_file_operations_unmount_mount none
         { ptr := 3, can_unmount := true, can_eject := false } false true] ∧
    Event.nautilus_file_operations_unmount_mount none
         { ptr := 3, can_unmount := true, can_eject := false } false false ∉
      nautilus_desktop_icon_file_unmount example_icon_file := by
  decide

/-- C5, amended: when the link of the file resolves to a mount, unmount asks the link for the
mount and forwards to `nautilus_file_operations_unmount_mount` once, with that mount, eject
false and forceful true, and eject does the same with eject true and forceful true; when no
mount is associated, neither calls the executor. -/
theorem unmount_eject_forward (file : NautilusFile) :
    (∀ mount, nautilus_desktop_link_get_mount file.link = some mount →
      nautilus_desktop_icon_file_unmount file =
        [Event.nautilus_desktop_link_get_mount file.link,
         Event.nautilus_file_operations_unmount_mount none mount false true] ∧
      nautilus_desktop_icon_file_eject file =
        [Event.nautilus_desktop_link_get_mount file.link,
         Event.nautilus_file_operations_unmount_mount none mount true true]) ∧
    (nautilus_desktop_link_get_mount file.link = none →
      (nautilus_desktop_icon_file_unmount file).any (fun e => e.is_unmount_mount) = false ∧
      (nautilus_desktop_icon_file_eject file).any (fun e => e.is_unmount_mount) = false) := by
  constructor
  · intro mount h
    simp [nautilus_desktop_icon_file_unmount, nautilus_desktop_icon_file_eject, h]
  · intro h
    simp [nautilus_desktop_icon_file_unmount, nautilus_desktop_icon_file_eject, h,
      Event.is_unmount_mount]

/-- C5, amended, at concrete inputs: the example icon file (mount 3) and the file without a
link. -/
theorem unmount_eject_forward_witness :
    (nautilus_desktop_icon_file_unmount example_icon_file =
        [Event.nautilus_desktop_link_get_mount example_icon_file.link,
         Event.nautilus_file_operations_unmount_mount none
           { ptr := 3, can_unmount := true, can_eject := false } false true] ∧
      nautilus_desktop_icon_file_eject example_icon_file =
        [Event.nautilus_desktop_link_get_mount example_icon_file.link,
         Event.nautilus_file_operations_unmount_mount none
           { ptr := 3, can_unmount := true, can_eject := false } true true]) ∧
    ((nautilus_desktop_icon_file_unmount unlinked_file).any (fun e => e.is_unmount_mount) = false ∧
      (nautilus_desktop_icon_file_eject unlinked_file).any (fun e => e.is_unmount_mount) = false) :=
  ⟨(unmount_eject_forward example_icon_file).1 _ (by decide),
   (unmount_eject_forward unlinked_file).2 (by decide)⟩

/-! ## Remove and refresh -/

/-- C6: `nautilus_desktop_icon_file_remove` sets `is_gone`, leaves the link reference null
(so `nautilus_desktop_icon_file_get_link` returns NULL afterwards), changes no other field,
and makes exactly two calls: `nautilus_directory_remove_file` for this file on its
directory, then one `nautilus_directory_emit_change_signals` whose list holds exactly this
file. -/
theorem remove_effects (icon_file : NautilusFile) :
    (nautilus_desktop_icon_file_remove icon_file).1.is_gone = true ∧
    (nautilus_desktop_icon_file_remove icon_file).1.link = none ∧
    nautilus_desktop_icon_file_get_link (nautilus_desktop_icon_file_remove icon_file).1 = none ∧
    (nautilus_desktop_icon_file_remove icon_file).1 =
      { icon_file with is_gone := true, link := none } ∧
    (nautilus_desktop_icon_file_remove icon_file).2 =
      [Event.nautilus_directory_remove_file icon_file.directory icon_file.ptr,
       Event.nautilus_directory_emit_change_signals icon_file.directory [icon_file.ptr]] :=
  ⟨rfl, rfl, rfl, rfl, rfl⟩

/-- C7: `update_info_from_link` is idempotent. With the link answering the same on both runs,
a second run right after the first leaves the file, every cached field of it, as the first
run left it; so does a run right after `nautilus_desktop_icon_file_new`, which has run it
once. -/
theorem update_info_from_link_idempotent (icon_file : NautilusFile)
    (directory : Option Nat) (link : Option NautilusDesktopLink) :
    (update_info_from_link (update_info_from_link icon_file).1).1 =
      (update_info_from_link icon_file).1 ∧
    (update_info_from_link (update_info_from_link icon_file).1).2 =
      (update_info_from_link icon_file).2 ∧
    (update_info_from_link (nautilus_desktop_icon_file_new directory icon_file link).1).1 =
      (nautilus_desktop_icon_file_new directory icon_file link).1 := by
  refine ⟨?_, ?_, ?_⟩
  · unfold update_info_from_link
    cases hl : icon_file.link with
    | none => simp [hl]
    | some l =>
      cases hm : l.mount <;>
        simp [nautilus_desktop_link_get_mount, nautilus_file_set_display_name, hm]
  · unfold update_info_from_link
    cases hl : icon_file.link with
    | none => simp [hl]
    | some l =>
      cases hm : l.mount <;>
        simp [nautilus_desktop_link_get_mount, nautilus_file_set_display_name, hm]
  · unfold nautilus_desktop_icon_file_new update_info_from_link nautilus_file_set_directory
    cases link with
    | none => simp
    | some l =>
      cases hm : l.mount <;>
        simp [nautilus_desktop_link_get_mount, nautilus_file_set_display_name, hm]

/-- C8: with a null link reference `update_info_from_link` is a no-op: the file comes back
with every field unchanged and no call is made, so no link getter is called. -/
theorem update_info_from_link_null_noop (icon_file : NautilusFile)
    (h : icon_file.link = none) :
    update_info_from_link icon_file = (icon_file, []) :=
  update_info_from_link_of_null icon_file h

/-- C8 at a concrete input: the example icon file after `nautilus_desktop_icon_file_remove`. -/
theorem update_info_from_link_null_noop_witness :
    removed_icon_file.link = none ∧
    update_info_from_link removed_icon_file = (removed_icon_file, []) :=
  ⟨by decide, update_info_from_link_null_noop removed_icon_file (by decide)⟩

/-! ## Progress widget -/

/-- C9: `update_progress` makes exactly one call: `gtk_progress_bar_pulse` (and no
`gtk_progress_bar_set_fraction`) when the reported progress is below 0, and otherwise
`gtk_progress_bar_set_fraction` with exactly the reported progress (and no pulse); -1 gives a
pulse and 0.42 the fraction 0.42. On a widget built by `nautilus_progress_info_widget_new`, a
`finished` notification makes exactly one call, `gtk_widget_destroy` of the widget. -/
theorem update_progress_pulse_or_fraction (self : NautilusProgressInfoWidget) (p : Double)
    (q : ℚ) (template : WidgetTemplate) (info : NautilusProgressInfo) :
    update_progress (reporting self p) =
      (if p.lt_zero then [WidgetEvent.gtk_progress_bar_pulse self.progress_bar]
       else [WidgetEvent.gtk_progress_bar_set_fraction self.progress_bar p]) ∧
    update_progress (reporting self (Double.finite q)) =
      (if q < 0 then [WidgetEvent.gtk_progress_bar_pulse self.progress_bar]
       else [WidgetEvent.gtk_progress_bar_set_fraction self.progress_bar (Double.finite q)]) ∧
    update_progress (reporting self (Double.finite (-1))) =
      [WidgetEvent.gtk_progress_bar_pulse self.progress_bar] ∧
    update_progress (reporting self (Double.finite 0.42)) =
      [WidgetEvent.gtk_progress_bar_set_fraction self.progress_bar (Double.finite 0.42)] ∧
    emit_info_signal (nautilus_progress_info_widget_new template info).1 InfoSignal.finished =
      [WidgetEvent.gtk_widget_destroy template.ptr] ∧
    (emit_info_signal (nautilus_progress_info_widget_new template info).1
      InfoSignal.finished).countP (fun e => e.is_destroy) = 1 := by
  have hq : ∀ r : ℚ, update_progress (reporting self (Double.finite r)) =
      (if r < 0 then [WidgetEvent.gtk_progress_bar_pulse self.progress_bar]
       else [WidgetEvent.gtk_progress_bar_set_fraction self.progress_bar (Double.finite r)]) := by
    intro r
    by_cases hr : r < 0 <;> simp [update_progress, reporting, Double.lt_zero, hr]
  refine ⟨?_, hq q, ?_, ?_, ?_, ?_⟩
  · cases hp : p.lt_zero <;> simp [update_progress, reporting, hp]
  · rw [hq]
    norm_num
  · rw [hq]
    norm_num
  · rfl
  · rfl

/-- C10: on a widget built by `nautilus_progress_info_widget_new`, the first activation of
the cancel button (sensitive in the template) calls `nautilus_progress_info_cancel` once and
makes the button insensitive; the button is insensitive after the first activation in any
case, the second activation makes no call at all, and the two activations together call
`nautilus_progress_info_cancel` at most once. -/
theorem cancel_twice_cancels_once (template : WidgetTemplate) (info : NautilusProgressInfo) :
    (activate_cancel_button (nautilus_progress_info_widget_new template info).1).2 =
      (if template.cancel.sensitive then
        [WidgetEvent.nautilus_progress_info_cancel info.ptr,
         WidgetEvent.gtk_widget_set_sensitive template.cancel.ptr false]
       else []) ∧
    (activate_cancel_button
      (nautilus_progress_info_widget_new template info).1).1.cancel.sensitive = false ∧
    (activate_cancel_button (activate_cancel_button
      (nautilus_progress_info_widget_new template info).1).1).2 = [] ∧
    ((activate_cancel_button (nautilus_progress_info_widget_new template info).1).2 ++
      (activate_cancel_button (activate_cancel_button
        (nautilus_progress_info_widget_new template info).1).1).2).countP
        (fun e => e.is_cancel) ≤ 1 := by
  cases hs : template.cancel.sensitive <;>
    simp [activate_cancel_button, nautilus_progress_info_widget_new,
      nautilus_progress_info_widget_constructed, nautilus_progress_info_widget_init,
      run_click_handlers, cancel_clicked, WidgetEvent.is_cancel, hs]

/-! ## Counts -/

/-- C11: for every desktop icon file, whatever its link and whether or not it is gone,
`desktop_icon_file_get_item_count` returns TRUE and stores count 0 and count_unreadable
FALSE, and `desktop_icon_file_get_deep_counts` returns `NAUTILUS_REQUEST_DONE` and stores 0
in the directory count, the file count, the unreadable-directory count and the total size;
an out argument that is NULL is skipped (it stays NULL, nothing is stored), the others are
still written. -/
theorem counts_always_zero (file : NautilusFile)
    (c d f u : Nat) (b : Bool) (t : Int)
    (count directory_count file_count unreadable_directory_count : Option Nat)
    (count_unreadable : Option Bool) (total_size : Option Int) :
    desktop_icon_file_get_item_count file (some c) (some b) = (true, some 0, some false) ∧
    desktop_icon_file_get_deep_counts file (some d) (some f) (some u) (some t) =
      (NautilusRequestStatus.NAUTILUS_REQUEST_DONE, some 0, some 0, some 0, some 0) ∧
    (desktop_icon_file_get_item_count file count count_unreadable).1 = true ∧
    (desktop_icon_file_get_item_count file count count_unreadable).2.1 =
      (if count.isSome then some 0 else none) ∧
    (desktop_icon_file_get_item_count file count count_unreadable).2.2 =
      (if count_unreadable.isSome then some false else none) ∧
    (desktop_icon_file_get_deep_counts file directory_count file_count
      unreadable_directory_count total_size).1 = NautilusRequestStatus.NAUTILUS_REQUEST_DONE ∧
    (desktop_icon_file_get_deep_counts file directory_count file_count
      unreadable_directory_count total_size).2.1 =
      (if directory_count.isSome then some 0 else none) ∧
    (desktop_icon_file_get_deep_counts file directory_count file_count
      unreadable_directory_count total_size).2.2.1 =
      (if file_count.isSome then some 0 else none) ∧
    (desktop_icon_file_get_deep_counts file directory_count file_count
      unreadable_directory_count total_size).2.2.2.1 =
      (if unreadable_directory_count.isSome then some 0 else none) ∧
    (desktop_icon_file_get_deep_counts file directory_count file_count
      unreadable_directory_count total_size).2.2.2.2 =
      (if total_size.isSome then some 0 else none) := by
  refine ⟨rfl, rfl, rfl, ?_, ?_, rfl, ?_, ?_, ?_, ?_⟩
  · cases count <;> rfl
  · cases count_unreadable <;> rfl
  · cases directory_count <;> rfl
  · cases file_count <;> rfl
  · cases unreadable_directory_count <;> rfl
  · cases total_size <;> rfl

/-! ## Cached fields after a refresh -/

/-- C12, as stated, fails on the MIME type: after `update_info_from_link` on the example file
with the example link attached, the cached MIME type is "application/x-nautilus-link", not
"shortcut"; it is the file type that is `G_FILE_TYPE_SHORTCUT`. -/
theorem update_info_from_link_mime_type_not_shortcut :
    linked_file.link = some example_link ∧
    (update_info_from_link linked_file).1.mime_type = some "application/x-nautilus-link" ∧
    (update_info_from_link linked_file).1.mime_type ≠ some "shortcut" ∧
    (update_info_from_link linked_file).1.type = GFileType.G_FILE_TYPE_SHORTCUT := by
  decide

/-- C12, amended: after `update_info_from_link` runs with a non-null link, the cached MIME
type is the fixed value "application/x-nautilus-link" and the file type is
`G_FILE_TYPE_SHORTCUT`; size is 0, can_read and can_write are true, the directory count is 0,
can_mount is false, the cached mount is the one the link answers, and can_unmount and can_eject
are that mount's own answers when the link has a mount and both false when it has none. -/
theorem update_info_from_link_fields (icon_file : NautilusFile) (link : NautilusDesktopLink)
    (h : icon_file.link = some link) :
    (update_info_from_link icon_file).1.mime_type = some "application/x-nautilus-link" ∧
    (update_info_from_link icon_file).1.type = GFileType.G_FILE_TYPE_SHORTCUT ∧
    (update_info_from_link icon_file).1.size = 0 ∧
    (update_info_from_link icon_file).1.can_read = true ∧
    (update_info_from_link icon_file).1.can_write = true ∧
    (update_info_from_link icon_file).1.directory_count = 0 ∧
    (update_info_from_link icon_file).1.can_mount = false ∧
    (update_info_from_link icon_file).1.mount = nautilus_desktop_link_get_mount (some link) ∧
    (∀ mount, nautilus_desktop_link_get_mount (some link) = some mount →
      (update_info_from_link icon_file).1.can_unmount = mount.can_unmount ∧
      (update_info_from_link icon_file).1.can_eject = mount.can_eject) ∧
    (nautilus_desktop_link_get_mount (some link) = none →
      (update_info_from_link icon_file).1.can_unmount = false ∧
      (update_info_from_link icon_file).1.can_eject = false) := by
  unfold update_info_from_link
  rw [h]
  cases hm : link.mount <;>
    simp [nautilus_desktop_link_get_mount, nautilus_file_set_display_name, hm]

/-- C12, amended, at concrete inputs: the example link, whose mount can be unmounted but not
ejected, and a launcher without a mount attached to a file with stale cached fields. -/
theorem update_info_from_link_fields_witness :
    linked_file.link = some example_link ∧
    (update_info_from_link linked_file).1.mime_type = some "application/x-nautilus-link" ∧
    (update_info_from_link linked_file).1.can_unmount = true ∧
    (update_info_from_link linked_file).1.can_eject = false ∧
    stale_launcher_file.link = some example_launcher ∧
    (update_info_from_link stale_launcher_file).1.size = 0 ∧
    (update_info_from_link stale_launcher_file).1.directory_count = 0 ∧
    (update_info_from_link stale_launcher_file).1.can_mount = false ∧
    (update_info_from_link stale_launcher_file).1.can_unmount = false ∧
    (update_info_from_link stale_launcher_file).1.can_eject = false :=
  have a := update_info_from_link_fields linked_file example_link (by decide)
  have b := update_info_from_link_fields stale_launcher_file example_launcher (by decide)
  ⟨by decide, a.1,
   (a.2.2.2.2.2.2.2.2.1 { ptr := 3, can_unmount := true, can_eject := false } (by decide)).1,
   (a.2.2.2.2.2.2.2.2.1 { ptr := 3, can_unmount := true, can_eject := false } (by decide)).2,
   by decide, b.2.2.1, b.2.2.2.2.2.1, b.2.2.2.2.2.2.1,
   (b.2.2.2.2.2.2.2.2.2 (by decide)).1, (b.2.2.2.2.2.2.2.2.2 (by decide)).2⟩

end Nautilus
